import Mathlib

/-!
# FreeRTOScpp `ReadWriteLock` — shallow embedding and verification

Shallow embedding of the upgradable reader/writer lock in
`src/ReadWrite.cpp` / `src/ReadWrite.h` (class `ReadWriteLock`).

The shared state of the C++ object is three fields:
  * `int readCount = 0`   — number of readers, or `-1` for write mode;
  * `TaskHandle_t reserved = nullptr` — the task holding the upgrade
    reservation, modelled as `Option Nat` (`none` = `nullptr`);
  * `int writeReq = -1`   — priority watermark of a waiting writer
    (`-1` = "none"; FreeRTOS priorities are non-negative, so writer
    priorities are modelled as `Nat` and coerced to `Int` where the
    C++ code compares them with `writeReq`).

Each critical-section body of the C++ code becomes one pure function
`LockState → OpResult`, where `OpResult` also records the boolean return
value and the bitmask passed to `event.set` (0 when no signal is raised;
`read_bit = 1`, `write_bit = 2` as in the source).  The blocking loops of
`readLock` / `reservedLock` / `writeLock` repeat their critical-section
attempt; a zero-wait (`wait = 0`) call performs exactly one attempt and,
on failure, immediately runs the timeout branch, which `writeLock_zero`
models end to end.  For reachability claims, interleaved executions of
the six public operations are over-approximated by the atomic `Step`
relation, whose cases are exactly the critical sections that mutate the
state.
-/

namespace FreeRTOScpp

/-- Event bits, from `ReadWrite.cpp`: `read_bit = 1 << 0`. -/
def read_bit : Nat := 1

/-- Event bits, from `ReadWrite.cpp`: `write_bit = 1 << 1`. -/
def write_bit : Nat := 2

/-- The mutable fields of class `ReadWriteLock` (`src/ReadWrite.h`). -/
structure LockState where
  readCount : Int
  reserved : Option Nat
  writeReq : Int
deriving DecidableEq

/-- Initial state: `readCount = 0`, `reserved = nullptr`, `writeReq = -1`. -/
def initState : LockState := ⟨0, none, -1⟩

/-- Result of one operation (or one critical-section attempt): the boolean
return value, the state after, and the bitmask of event bits signalled. -/
structure OpResult where
  ret : Bool
  state : LockState
  signals : Nat
deriving DecidableEq

/-- One critical-section attempt of `ReadWriteLock::readLock`
(`ReadWrite.cpp` lines 76–83): admit when `readCount >= 0` and the
caller's priority exceeds `writeReq`; on success increment `readCount`. -/
def readLock_try (prio : Nat) (s : LockState) : OpResult :=
  if s.readCount ≥ 0 ∧ (prio : Int) > s.writeReq then
    ⟨true, { s with readCount := s.readCount + 1 }, 0⟩
  else
    ⟨false, s, 0⟩

/-- One critical-section attempt of `ReadWriteLock::reservedLock`
(`ReadWrite.cpp` lines 98–106): like `readLock` but also requires
`reserved == nullptr`, and records the caller as `reserved`. -/
def reservedLock_try (task prio : Nat) (s : LockState) : OpResult :=
  if s.readCount ≥ 0 ∧ s.reserved = none ∧ (prio : Int) > s.writeReq then
    ⟨true, { s with readCount := s.readCount + 1, reserved := some task }, 0⟩
  else
    ⟨false, s, 0⟩

/-- `ReadWriteLock::requestReserved` (`ReadWrite.cpp` lines 116–126). -/
def requestReserved (task : Nat) (s : LockState) : OpResult :=
  if s.readCount > 0 ∧ s.reserved = none then
    ⟨true, { s with reserved := some task }, 0⟩
  else
    ⟨false, s, 0⟩

/-- `ReadWriteLock::releaseReserved` (`ReadWrite.cpp` lines 128–137). -/
def releaseReserved (task : Nat) (s : LockState) : OpResult :=
  if s.reserved = some task then
    ⟨true, { s with reserved := none }, read_bit⟩
  else
    ⟨false, s, 0⟩

/-- `ReadWriteLock::readUnlock` (`ReadWrite.cpp` lines 139–163), in source
order: clear `reserved` (signalling `read_bit`) when the caller holds it;
then decrement `readCount` when positive, else report failure; then clear
`reserved` "just for safety" when `readCount == 0`; finally signal
`write_bit` when `readCount == 0`. -/
def readUnlock (task : Nat) (s : LockState) : OpResult :=
  let s1 : LockState := if s.reserved = some task then { s with reserved := none } else s
  let sig1 : Nat := if s.reserved = some task then read_bit else 0
  let ret : Bool := decide (s1.readCount > 0)
  let s2 : LockState :=
    if s1.readCount > 0 then { s1 with readCount := s1.readCount - 1 } else s1
  let s3 : LockState := if s2.readCount = 0 then { s2 with reserved := none } else s2
  let sig2 : Nat := if s3.readCount = 0 then write_bit else 0
  ⟨ret, s3, sig1 ||| sig2⟩

/-- One critical-section acquisition attempt of `ReadWriteLock::writeLock`
(`ReadWrite.cpp` lines 170–177): the guard is
`0 <= readCount && readCount <= (reserved == task)` (the C++ comparison
`reserved == task` is 1 when the caller holds the reservation, else 0);
on success set `readCount = -1` and `writeReq = -1`. -/
def writeLock_try (task : Nat) (s : LockState) : OpResult :=
  if 0 ≤ s.readCount ∧ s.readCount ≤ (if s.reserved = some task then 1 else 0) then
    ⟨true, { s with readCount := -1, writeReq := -1 }, 0⟩
  else
    ⟨false, s, 0⟩

/-- The timeout branch of `ReadWriteLock::writeLock`
(`ReadWrite.cpp` lines 179–193): when the deadline has passed, clear
`writeReq` and signal `read_bit|write_bit` if `writeReq` equals the
caller's priority, otherwise touch nothing; return false either way. -/
def writeLock_timeout (prio : Nat) (s : LockState) : OpResult :=
  if s.writeReq = (prio : Int) then
    ⟨false, { s with writeReq := -1 }, read_bit ||| write_bit⟩
  else
    ⟨false, s, 0⟩

/-- The in-loop watermark update of `ReadWriteLock::writeLock`
(`ReadWrite.cpp` lines 195–200), run after a failed attempt that has not
yet timed out, just before sleeping: raise `writeReq` to the caller's
priority when it is higher. -/
def writeLock_raise (prio : Nat) (s : LockState) : LockState :=
  if s.writeReq < (prio : Int) then { s with writeReq := (prio : Int) } else s

/-- A complete `writeLock(0)` call: one acquisition attempt; on failure the
elapsed time (0) is already `>= wait`, so the timeout branch runs at once —
the in-loop `writeReq` raise is never reached with a zero wait. -/
def writeLock_zero (task prio : Nat) (s : LockState) : OpResult :=
  let a := writeLock_try task s
  if a.ret then a else writeLock_timeout prio a.state

/-- `ReadWriteLock::writeUnlock` (`ReadWrite.cpp` lines 206–219): fail when
`readCount >= 0`; otherwise set `readCount = 1` when the caller holds the
reservation (downgrade to the reserved read phase), else `readCount = 0`,
and signal `read_bit|write_bit`. -/
def writeUnlock (task : Nat) (s : LockState) : OpResult :=
  if s.readCount ≥ 0 then
    ⟨false, s, 0⟩
  else if s.reserved = some task then
    ⟨true, { s with readCount := 1 }, read_bit ||| write_bit⟩
  else
    ⟨true, { s with readCount := 0 }, read_bit ||| write_bit⟩

/-- One atomic state change, by any task `t` at any priority `p`: each case
is one critical section of the source.  Interleavings of the six public
operations by concurrent tasks are exactly sequences of these steps (the
three blocking calls are loops over their attempt / raise / timeout
critical sections). -/
inductive Step : LockState → LockState → Prop where
  | readLock (p : Nat) (s : LockState) : Step s (readLock_try p s).state
  | reservedLock (t p : Nat) (s : LockState) : Step s (reservedLock_try t p s).state
  | requestRes (t : Nat) (s : LockState) : Step s (requestReserved t s).state
  | releaseRes (t : Nat) (s : LockState) : Step s (releaseReserved t s).state
  | readUnlock (t : Nat) (s : LockState) : Step s (readUnlock t s).state
  | writeTry (t : Nat) (s : LockState) : Step s (writeLock_try t s).state
  | writeRaise (p : Nat) (s : LockState) : Step s (writeLock_raise p s)
  | writeTimeout (p : Nat) (s : LockState) : Step s (writeLock_timeout p s).state
  | writeUnlock (t : Nat) (s : LockState) : Step s (writeUnlock t s).state

/-- States reachable from the freshly constructed lock by atomic steps. -/
inductive Reachable : LockState → Prop where
  | init : Reachable initState
  | step {s s' : LockState} : Reachable s → Step s s' → Reachable s'

end FreeRTOScpp

namespace FreeRTOScpp

/-! ## Invariant machinery -/

/-- Every atomic step keeps `readCount` at or above `-1`: acquisition paths
require `readCount ≥ 0` before writing `-1` or incrementing, `readUnlock`
decrements only a positive count, and `writeUnlock` writes `0` or `1`. -/
lemma step_readCount_lb {s s' : LockState} (hs : -1 ≤ s.readCount) (h : Step s s') :
    -1 ≤ s'.readCount := by
  cases h <;>
    simp only [readLock_try, reservedLock_try, requestReserved, releaseReserved,
      readUnlock, writeLock_try, writeLock_raise, writeLock_timeout, writeUnlock] <;>
    split_ifs <;> simp_all <;> omega

/-- Like `Step`, but `writeUnlock` is only invoked by a caller that holds the
reservation or while no reservation is held — i.e. `writeUnlock` is not
called by a task other than the reservation holder.  (An exclusive holder
that upgraded holds the reservation; a plain writer acquired `writeLock`
while `reserved` was empty, and `reserved` can only be set by `reservedLock`
or `requestReserved` while `readCount > 0`.) -/
inductive StepSafe : LockState → LockState → Prop where
  | readLock (p : Nat) (s : LockState) : StepSafe s (readLock_try p s).state
  | reservedLock (t p : Nat) (s : LockState) : StepSafe s (reservedLock_try t p s).state
  | requestRes (t : Nat) (s : LockState) : StepSafe s (requestReserved t s).state
  | releaseRes (t : Nat) (s : LockState) : StepSafe s (releaseReserved t s).state
  | readUnlock (t : Nat) (s : LockState) : StepSafe s (readUnlock t s).state
  | writeTry (t : Nat) (s : LockState) : StepSafe s (writeLock_try t s).state
  | writeRaise (p : Nat) (s : LockState) : StepSafe s (writeLock_raise p s)
  | writeTimeout (p : Nat) (s : LockState) : StepSafe s (writeLock_timeout p s).state
  | writeUnlock (t : Nat) (s : LockState)
      (h : s.reserved = none ∨ s.reserved = some t) : StepSafe s (writeUnlock t s).state

/-- States reachable when `writeUnlock` respects its ownership precondition. -/
inductive ReachableSafe : LockState → Prop where
  | init : ReachableSafe initState
  | step {s s' : LockState} : ReachableSafe s → StepSafe s s' → ReachableSafe s'

/-- Inductive invariant of ownership-respecting executions: `readCount` never
drops below `-1`, and a free lock (`readCount = 0`) has no reservation. -/
def SafeInv (s : LockState) : Prop :=
  -1 ≤ s.readCount ∧ (s.readCount = 0 → s.reserved = none)

lemma stepSafe_inv {s s' : LockState} (hs : SafeInv s) (h : StepSafe s s') : SafeInv s' := by
  obtain ⟨h1, h2⟩ := hs
  cases h <;>
    simp only [SafeInv, readLock_try, reservedLock_try, requestReserved, releaseReserved,
      readUnlock, writeLock_try, writeLock_raise, writeLock_timeout, writeUnlock] <;>
    split_ifs <;> simp_all <;> omega

lemma reachableSafe_inv {s : LockState} (h : ReachableSafe s) : SafeInv s := by
  induction h with
  | init => exact ⟨by decide, by decide⟩
  | step _ hstep ih => exact stepSafe_inv ih hstep

/-- The Upgraded phase is reachable: task 0 takes `reservedLock` on the fresh
lock, then upgrades with `writeLock`, giving `(-1, some 0, -1)`. -/
lemma reachable_upgraded : Reachable (⟨-1, some 0, -1⟩ : LockState) := by
  have h1 : Reachable (reservedLock_try 0 0 initState).state :=
    Reachable.step Reachable.init (Step.reservedLock 0 0 initState)
  have e1 : (reservedLock_try 0 0 initState).state = (⟨1, some 0, -1⟩ : LockState) := by
    decide
  rw [e1] at h1
  have h2 : Reachable (writeLock_try 0 (⟨1, some 0, -1⟩ : LockState)).state :=
    Reachable.step h1 (Step.writeTry 0 _)
  have e2 : (writeLock_try 0 (⟨1, some 0, -1⟩ : LockState)).state
      = (⟨-1, some 0, -1⟩ : LockState) := by
    decide
  rw [e2] at h2
  exact h2

/-- The Reserved phase `(1, some 0, -1)` is reachable with ownership
respected: one successful `reservedLock` on the fresh lock. -/
lemma reachableSafe_reserved_one : ReachableSafe (⟨1, some 0, -1⟩ : LockState) := by
  have h1 : ReachableSafe (reservedLock_try 0 0 initState).state :=
    ReachableSafe.step ReachableSafe.init (StepSafe.reservedLock 0 0 initState)
  have e1 : (reservedLock_try 0 0 initState).state = (⟨1, some 0, -1⟩ : LockState) := by
    decide
  rw [e1] at h1
  exact h1

/-! ## Claim theorems -/

/-- Claim C1, counterexample.  In state `(readCount = 2, reserved = task 0,
writeReq = none)`, `writeLock(0)` by task 1 at priority 5 returns false but
leaves the state unchanged — in particular `writeReq` stays none, because a
zero-wait call reaches the timeout branch before the in-loop watermark
raise — and the subsequent `readLock(0)` at priority 3 therefore returns
true, not false as the claim states. -/
theorem c1_counterexample :
    writeLock_zero 1 5 ⟨2, some 0, -1⟩ = ⟨false, ⟨2, some 0, -1⟩, 0⟩ ∧
    (readLock_try 3 ⟨2, some 0, -1⟩).ret = true :=
  ⟨by decide, by decide⟩

/-- Claim C1, amended.  `writeLock(0)` by task 1 at priority 5 in state
`(2, some 0, none)` returns false and leaves the state unchanged, so
`readLock(0)` at priority 3 then succeeds; the state `(2, some 0, 5)` claimed
by the spec arises only from the in-loop raise step of a blocking (non-zero
wait) `writeLock`, after which a priority-3 `readLock` attempt does fail. -/
theorem c1_amended :
    (writeLock_zero 1 5 ⟨2, some 0, -1⟩).ret = false ∧
    (writeLock_zero 1 5 ⟨2, some 0, -1⟩).state = ⟨2, some 0, -1⟩ ∧
    (readLock_try 3 ⟨2, some 0, -1⟩).ret = true ∧
    writeLock_raise 5 ⟨2, some 0, -1⟩ = ⟨2, some 0, 5⟩ ∧
    (readLock_try 3 ⟨2, some 0, 5⟩).ret = false := by
  refine ⟨by decide, by decide, by decide, by decide, by decide⟩

/-- Claim C2.  A single `readLock` attempt succeeds iff `readCount ≥ 0` and
the caller's priority strictly exceeds `writeReq`; on success it increments
`readCount` by one leaving `reserved` and `writeReq` unchanged, on failure
it changes nothing; `writeReq = none` (= -1) admits every priority (given
`readCount ≥ 0`); and any caller with priority ≤ `writeReq` fails. -/
theorem c2_readLock_admission (p : Nat) (s : LockState) :
    ((readLock_try p s).ret = true ↔ (0 ≤ s.readCount ∧ s.writeReq < (p : Int))) ∧
    ((readLock_try p s).ret = true →
      (readLock_try p s).state = { s with readCount := s.readCount + 1 }) ∧
    ((readLock_try p s).ret = false → (readLock_try p s).state = s) ∧
    (s.writeReq = -1 → 0 ≤ s.readCount → (readLock_try p s).ret = true) ∧
    ((p : Int) ≤ s.writeReq → (readLock_try p s).ret = false) := by
  unfold readLock_try
  split_ifs with h <;> simp_all
  omega

/-- Claim C2, witness: with a writer waiting at priority 1, a priority-1
reader is refused. -/
theorem c2_readLock_admission_witness :
    (readLock_try 1 ⟨0, none, 1⟩).ret = false :=
  (c2_readLock_admission 1 ⟨0, none, 1⟩).2.2.2.2 (by decide)

/-- Claim C3.  A `writeLock` attempt succeeds exactly when `readCount = 0`
or (`readCount = 1` and the caller holds the reservation); success sets
`readCount := -1` and `writeReq := none` leaving `reserved` unchanged; and
the sole reader holding the reservation succeeds even on a zero-wait call. -/
theorem c3_writeLock_admission (t p : Nat) (s : LockState) :
    ((writeLock_try t s).ret = true ↔
      (s.readCount = 0 ∨ (s.readCount = 1 ∧ s.reserved = some t))) ∧
    ((writeLock_try t s).ret = true →
      (writeLock_try t s).state = ⟨-1, s.reserved, -1⟩) ∧
    (s.readCount = 1 → s.reserved = some t →
      (writeLock_zero t p s).ret = true ∧
      (writeLock_zero t p s).state = ⟨-1, s.reserved, -1⟩) := by
  unfold writeLock_zero writeLock_try
  split_ifs with h <;> simp_all <;> omega

/-- Claim C3, witness: the upgrade at zero wait from `(1, some 0, 7)`. -/
theorem c3_writeLock_admission_witness :
    (writeLock_zero 0 5 ⟨1, some 0, 7⟩).ret = true ∧
    (writeLock_zero 0 5 ⟨1, some 0, 7⟩).state = ⟨-1, some 0, -1⟩ :=
  (c3_writeLock_admission 0 5 ⟨1, some 0, 7⟩).2.2 (by decide) (by decide)

/-- Claim C4, counterexample.  In the upgraded state `(-1, some 0, -1)` the
reservation holder's `readUnlock` returns false but does NOT leave the state
unchanged: it clears `reserved` (and signals `read_bit`). -/
theorem c4_counterexample :
    (readUnlock 0 ⟨-1, some 0, -1⟩).ret = false ∧
    (readUnlock 0 ⟨-1, some 0, -1⟩).state ≠ ⟨-1, some 0, -1⟩ :=
  ⟨by decide, by decide⟩

/-- Claim C4, amended.  `readUnlock` without a read lock held
(`readCount ≤ 0`) returns false and leaves `readCount` and `writeReq`
unchanged, but `reserved` is cleared when `readCount = 0`, and also when the
caller holds the reservation; only otherwise is it left unchanged. -/
theorem c4_readUnlock_no_lock (t : Nat) (s : LockState) (h : s.readCount ≤ 0) :
    (readUnlock t s).ret = false ∧
    (readUnlock t s).state.readCount = s.readCount ∧
    (readUnlock t s).state.writeReq = s.writeReq ∧
    (readUnlock t s).state.reserved =
      (if s.readCount = 0 then none
       else if s.reserved = some t then none else s.reserved) := by
  have hnotpos : ¬ (s.readCount > 0) := by omega
  by_cases h0 : s.readCount = 0 <;> by_cases hres : s.reserved = some t <;>
    simp [readUnlock, h0, hres, hnotpos]

/-- Claim C4 (amended), witness: the reservation holder in write mode. -/
theorem c4_readUnlock_no_lock_witness :
    (readUnlock 0 ⟨-1, some 0, -1⟩).ret = false ∧
    (readUnlock 0 ⟨-1, some 0, -1⟩).state.readCount
      = (⟨-1, some 0, -1⟩ : LockState).readCount ∧
    (readUnlock 0 ⟨-1, some 0, -1⟩).state.writeReq
      = (⟨-1, some 0, -1⟩ : LockState).writeReq ∧
    (readUnlock 0 ⟨-1, some 0, -1⟩).state.reserved =
      (if (⟨-1, some 0, -1⟩ : LockState).readCount = 0 then none
       else if (⟨-1, some 0, -1⟩ : LockState).reserved = some 0 then none
       else (⟨-1, some 0, -1⟩ : LockState).reserved) :=
  c4_readUnlock_no_lock 0 ⟨-1, some 0, -1⟩ (by decide)

/-- Claim C5.  In every state reachable from the fresh lock by any
interleaving of the critical sections of the six operations, `readCount` is
either `-1` or non-negative — never below `-1`. -/
theorem c5_readCount_valid {s : LockState} (h : Reachable s) :
    s.readCount = -1 ∨ 0 ≤ s.readCount := by
  have hlb : -1 ≤ s.readCount := by
    induction h with
    | init => decide
    | step _ hstep ih => exact step_readCount_lb ih hstep
  omega

/-- Claim C5, witness: the initial state. -/
theorem c5_readCount_valid_witness :
    initState.readCount = -1 ∨ 0 ≤ initState.readCount :=
  c5_readCount_valid Reachable.init

/-- Claim C6.  The timeout branch of `writeLock` returns false; it clears
`writeReq` to none and signals `read_bit ||| write_bit` exactly when
`writeReq` equals the caller's priority, and otherwise changes nothing and
signals nothing — for every prior state and caller priority. -/
theorem c6_writeLock_timeout_cleanup (p : Nat) (s : LockState) :
    (writeLock_timeout p s).ret = false ∧
    (s.writeReq = (p : Int) →
      writeLock_timeout p s = ⟨false, { s with writeReq := -1 }, read_bit ||| write_bit⟩) ∧
    (s.writeReq ≠ (p : Int) → writeLock_timeout p s = ⟨false, s, 0⟩) := by
  unfold writeLock_timeout
  split_ifs <;> simp_all

/-- Claim C6, witness: a priority-5 writer that still owns the watermark. -/
theorem c6_writeLock_timeout_cleanup_witness :
    writeLock_timeout 5 ⟨2, some 0, 5⟩
      = ⟨false, { (⟨2, some 0, 5⟩ : LockState) with writeReq := -1 },
          read_bit ||| write_bit⟩ :=
  (c6_writeLock_timeout_cleanup 5 ⟨2, some 0, 5⟩).2.1 (by decide)

/-- Claim C7, counterexample.  The reachable Upgraded phase `(-1, some 0,
none)` has `readCount ≤ 0` with `reserved` non-empty, refuting "reserved is
non-empty only while readCount > 0". -/
theorem c7_counterexample :
    Reachable (⟨-1, some 0, -1⟩ : LockState) ∧
    (⟨-1, some 0, -1⟩ : LockState).readCount ≤ 0 ∧
    (⟨-1, some 0, -1⟩ : LockState).reserved ≠ none :=
  ⟨reachable_upgraded, by decide, by decide⟩

/-- Claim C7, amended.  In every reachable state of executions in which
`writeUnlock` is called only by the reservation holder or while no
reservation is held, a non-empty `reserved` implies `readCount > 0` (the
Reserved phase) or `readCount = -1` (the Upgraded phase). -/
theorem c7_reserved_nonempty_phase {s : LockState} (h : ReachableSafe s)
    (hres : s.reserved ≠ none) : 0 < s.readCount ∨ s.readCount = -1 := by
  obtain ⟨h1, h2⟩ := reachableSafe_inv h
  by_contra hc
  push_neg at hc
  have h0 : s.readCount = 0 := by omega
  exact hres (h2 h0)

/-- Claim C7 (amended), witness: the Reserved phase `(1, some 0, none)`. -/
theorem c7_reserved_nonempty_phase_witness :
    0 < (⟨1, some 0, -1⟩ : LockState).readCount ∨
    (⟨1, some 0, -1⟩ : LockState).readCount = -1 :=
  c7_reserved_nonempty_phase reachableSafe_reserved_one (by decide)

/-- Claim C8.  From an upgraded exclusive hold (`readCount = -1`, caller
holds `reserved`), `writeUnlock` returns true and downgrades to
`readCount = 1` with `reserved` unchanged, and the subsequent `readUnlock`
by the same caller returns true, clears `reserved`, and frees the lock
(`readCount = 0`); an exclusive holder without the reservation instead gets
`readCount = 0` directly. -/
theorem c8_writeUnlock_downgrade (t : Nat) (s : LockState) (h : s.readCount = -1) :
    (s.reserved = some t →
      (writeUnlock t s).ret = true ∧
      (writeUnlock t s).state = ⟨1, s.reserved, s.writeReq⟩ ∧
      (readUnlock t (writeUnlock t s).state).ret = true ∧
      (readUnlock t (writeUnlock t s).state).state = ⟨0, none, s.writeReq⟩) ∧
    (s.reserved ≠ some t →
      (writeUnlock t s).ret = true ∧
      (writeUnlock t s).state = ⟨0, s.reserved, s.writeReq⟩) := by
  unfold writeUnlock readUnlock
  split_ifs <;> simp_all

/-- Claim C8, witness: task 0 releases its upgraded hold in `(-1, some 0, 4)`
and then read-unlocks, leaving the lock free with `writeReq` preserved. -/
theorem c8_writeUnlock_downgrade_witness :
    (writeUnlock 0 ⟨-1, some 0, 4⟩).ret = true ∧
    (writeUnlock 0 ⟨-1, some 0, 4⟩).state = ⟨1, some 0, 4⟩ ∧
    (readUnlock 0 (writeUnlock 0 ⟨-1, some 0, 4⟩).state).ret = true ∧
    (readUnlock 0 (writeUnlock 0 ⟨-1, some 0, 4⟩).state).state = ⟨0, none, 4⟩ :=
  (c8_writeUnlock_downgrade 0 ⟨-1, some 0, 4⟩ (by decide)).1 (by decide)

/-- Claim C9.  `writeUnlock` never checks that the caller is the exclusive
holder: for every state with `readCount < 0` (any negative value) and every
caller, it returns true and sets `readCount` to 1 when the caller equals
`reserved` and to 0 otherwise, leaving `reserved` and `writeReq` unchanged. -/
theorem c9_writeUnlock_no_owner_check (t : Nat) (s : LockState) (h : s.readCount < 0) :
    (writeUnlock t s).ret = true ∧
    (writeUnlock t s).state.readCount = (if s.reserved = some t then 1 else 0) ∧
    (writeUnlock t s).state.reserved = s.reserved ∧
    (writeUnlock t s).state.writeReq = s.writeReq := by
  unfold writeUnlock
  split_ifs <;> simp_all <;> omega

/-- Claim C9, witness: a stranger (task 5) releases a corrupted exclusive
hold with `readCount = -3` that it never acquired. -/
theorem c9_writeUnlock_no_owner_check_witness :
    (writeUnlock 5 ⟨-3, some 0, 2⟩).ret = true ∧
    (writeUnlock 5 ⟨-3, some 0, 2⟩).state.readCount
      = (if (⟨-3, some 0, 2⟩ : LockState).reserved = some 5 then 1 else 0) ∧
    (writeUnlock 5 ⟨-3, some 0, 2⟩).state.reserved
      = (⟨-3, some 0, 2⟩ : LockState).reserved ∧
    (writeUnlock 5 ⟨-3, some 0, 2⟩).state.writeReq
      = (⟨-3, some 0, 2⟩ : LockState).writeReq :=
  c9_writeUnlock_no_owner_check 5 ⟨-3, some 0, 2⟩ (by decide)

/-- Claim C10.  Every operation other than `writeLock` leaves `writeReq`
unchanged, for every state and caller — in particular `writeUnlock` does
not clear a pending writer's watermark. -/
theorem c10_writeReq_frame (t p : Nat) (s : LockState) :
    (readLock_try p s).state.writeReq = s.writeReq ∧
    (reservedLock_try t p s).state.writeReq = s.writeReq ∧
    (requestReserved t s).state.writeReq = s.writeReq ∧
    (releaseReserved t s).state.writeReq = s.writeReq ∧
    (readUnlock t s).state.writeReq = s.writeReq ∧
    (writeUnlock t s).state.writeReq = s.writeReq := by
  refine ⟨?_, ?_, ?_, ?_, ?_, ?_⟩ <;>
    simp only [readLock_try, reservedLock_try, requestReserved, releaseReserved,
      readUnlock, writeUnlock, apply_ite LockState.writeReq, apply_ite LockState.readCount] <;>
    split_ifs <;> simp_all

end FreeRTOScpp
